import Mathlib

/-!
Shallow embedding of the Hamster-runner game core.

The embedding follows the TypeScript sources:
  * `src/components/game/GameManager.ts` — the zustand game-state store
    (status, score, speed, baseSpeed, playerLane, isJumping, screenShake,
    highScore, boostActive, magnetActive) and its mutators;
  * `src/components/game/Player.tsx` — the player motion model
    (lane clamping, jump guard, parabolic jump arc);
  * the obstacles component — per-entity per-frame movement, despawn and
    collision resolution (`ObstacleItem`).

Timed side effects (`setTimeout` in the source) are modelled explicitly:
each store operation that schedules a timeout appends a `Timer` record to a
pending-timer list; `fireTimer` runs a due timer's callback exactly as the
source callback mutates the store.  Numbers are rationals: every numeric
literal of the source (0.12, 0.003, 0.4, 1.8, 0.6, 0.45, etc.) is exactly
representable, and the properties at stake (clamps, monotonicity, exact
formula values) are arithmetic-identical to the JS doubles on the ranges
involved.
-/

namespace HamsterRun

/-- The `status` union of `GameState` in GameManager.ts:
`'idle' | 'playing' | 'gameover'`. -/
inductive Status
  | idle
  | playing
  | gameover
deriving DecidableEq

/-- The data fields of the zustand store record in GameManager.ts. -/
structure GameState where
  status : Status
  score : Int
  speed : ℚ
  baseSpeed : ℚ
  playerLane : Int
  isJumping : Bool
  screenShake : Bool
  highScore : Int
  boostActive : Bool
  magnetActive : Bool
deriving DecidableEq

/-- The kind of a pending `setTimeout` callback scheduled by the store:
the shake-reset in `endGame`/`triggerScreenShake`, the boost expiry in
`activateBoost`, and the magnet expiry in `activateMagnet`. -/
inductive TimerKind
  | shakeClear
  | boostExpiry
  | magnetExpiry
deriving DecidableEq

/-- One pending `setTimeout`: the absolute time (ms) at which it becomes
due and which callback it runs. -/
structure Timer where
  fireAt : Nat
  kind : TimerKind
deriving DecidableEq

/-- The store together with the host environment's clock and pending
timeouts.  The source never cancels a timeout, so scheduling is always an
append. -/
structure Store where
  game : GameState
  now : Nat
  timers : List Timer
deriving DecidableEq

/-- The store's creation-time state in GameManager.ts (`status: 'idle'`,
`speed: 0.12`, `baseSpeed: 0.12`, `playerLane: 1`, …); `highScore` is read
from persistence (0 when absent). -/
def initialGame (storedHighScore : Int) : GameState :=
  { status := .idle
    score := 0
    speed := 0.12
    baseSpeed := 0.12
    playerLane := 1
    isJumping := false
    screenShake := false
    highScore := storedHighScore
    boostActive := false
    magnetActive := false }

/-- A fresh store at time 0 with no pending timeouts. -/
def initialStore (storedHighScore : Int) : Store :=
  { game := initialGame storedHighScore, now := 0, timers := [] }

/-- `startGame` (GameManager.ts lines 45–55): one `set` with the listed
fields; `highScore` is untouched. -/
def startGame (s : Store) : Store :=
  { s with game := { s.game with
      status := .playing
      score := 0
      speed := 0.12
      baseSpeed := 0.12
      playerLane := 1
      isJumping := false
      screenShake := false
      boostActive := false
      magnetActive := false } }

/-- `endGame` (GameManager.ts lines 57–77): commits
`newHighScore = Math.max(score, highScore)`, sets status/speed/shake, and
schedules a 500 ms shake-reset timeout.  There is no status guard in the
source. -/
def endGame (s : Store) : Store :=
  { s with
      game := { s.game with
        status := .gameover
        speed := 0
        highScore := max s.game.score s.game.highScore
        screenShake := true }
      timers := s.timers ++ [{ fireAt := s.now + 500, kind := .shakeClear }] }

/-- `restartGame` (GameManager.ts lines 79–89): textually the same `set`
as `startGame`. -/
def restartGame (s : Store) : Store :=
  { s with game := { s.game with
      status := .playing
      score := 0
      speed := 0.12
      baseSpeed := 0.12
      playerLane := 1
      isJumping := false
      screenShake := false
      boostActive := false
      magnetActive := false } }

/-- `incrementScore` (GameManager.ts lines 91–95): `score += amount`
(default amount 1 at the call sites that pass none). -/
def incrementScore (amount : Int) (s : Store) : Store :=
  { s with game := { s.game with score := s.game.score + amount } }

/-- `increaseSpeed` (GameManager.ts lines 97–100).  Both fields of the
`set` are computed from the pre-update state, exactly as the JS updater
function reads `state`: `speed` uses the OLD `state.baseSpeed`, not the
freshly clamped one. -/
def increaseSpeed (s : Store) : Store :=
  { s with game := { s.game with
      baseSpeed := min (s.game.baseSpeed + 0.003) 0.4
      speed :=
        min (if s.game.boostActive then s.game.baseSpeed * 1.8 else s.game.baseSpeed) 0.6 } }

/-- `setPlayerState` (GameManager.ts line 102): stores both arguments
with no guard and no clamping. -/
def setPlayerState (lane : Int) (jumping : Bool) (s : Store) : Store :=
  { s with game := { s.game with playerLane := lane, isJumping := jumping } }

/-- `triggerScreenShake` (GameManager.ts lines 104–107). -/
def triggerScreenShake (s : Store) : Store :=
  { s with
      game := { s.game with screenShake := true }
      timers := s.timers ++ [{ fireAt := s.now + 500, kind := .shakeClear }] }

/-- `activateBoost` (GameManager.ts lines 109–118): sets `boostActive`,
recomputes `speed = Math.min(baseSpeed * 1.8, 0.6)` immediately, and
schedules a deactivation timeout.  The previously pending boost timeout,
if any, is NOT cancelled (the source keeps no handle to it). -/
def activateBoost (durationMs : Nat) (s : Store) : Store :=
  { s with
      game := { s.game with
        boostActive := true
        speed := min (s.game.baseSpeed * 1.8) 0.6 }
      timers := s.timers ++ [{ fireAt := s.now + durationMs, kind := .boostExpiry }] }

/-- `activateMagnet` (GameManager.ts lines 120–125): sets `magnetActive`
and schedules a deactivation timeout; again no cancellation of a prior
timeout. -/
def activateMagnet (durationMs : Nat) (s : Store) : Store :=
  { s with
      game := { s.game with magnetActive := true }
      timers := s.timers ++ [{ fireAt := s.now + durationMs, kind := .magnetExpiry }] }

/-- The body of each `setTimeout` callback in GameManager.ts:
shake reset sets `screenShake: false`; boost expiry reads the
then-current `baseSpeed` (`get()`) and sets `boostActive: false,
speed: bs`; magnet expiry sets `magnetActive: false`.  None of them
checks `status`. -/
def runTimer (k : TimerKind) (g : GameState) : GameState :=
  match k with
  | .shakeClear => { g with screenShake := false }
  | .boostExpiry => { g with boostActive := false, speed := g.baseSpeed }
  | .magnetExpiry => { g with magnetActive := false }

/-- The host event loop firing pending timeout `i` once it is due:
runs its callback on the current state and removes it from the pending
list.  A timer that does not exist or is not yet due does nothing. -/
def fireTimer (s : Store) (i : Nat) : Store :=
  match s.timers[i]? with
  | none => s
  | some t =>
      if t.fireAt ≤ s.now then
        { s with game := runTimer t.kind s.game, timers := s.timers.eraseIdx i }
      else s

/-- Wall-clock time passing by `dt` milliseconds. -/
def advance (dt : Nat) (s : Store) : Store :=
  { s with now := s.now + dt }

/-- One public store operation or host-environment event. -/
inductive Op
  | startGame
  | restartGame
  | endGame
  | incrementScore (amount : Int)
  | increaseSpeed
  | setPlayerState (lane : Int) (jumping : Bool)
  | triggerScreenShake
  | activateBoost (durationMs : Nat)
  | activateMagnet (durationMs : Nat)
  | fireTimer (i : Nat)
  | advance (dt : Nat)
deriving DecidableEq

/-- Interpretation of one operation on the store. -/
def applyOp (o : Op) (s : Store) : Store :=
  match o with
  | .startGame => startGame s
  | .restartGame => restartGame s
  | .endGame => endGame s
  | .incrementScore a => incrementScore a s
  | .increaseSpeed => increaseSpeed s
  | .setPlayerState l j => setPlayerState l j s
  | .triggerScreenShake => triggerScreenShake s
  | .activateBoost d => activateBoost d s
  | .activateMagnet d => activateMagnet d s
  | .fireTimer i => fireTimer s i
  | .advance dt => advance dt s

/-- Running a sequence of operations left to right. -/
def runOps (ops : List Op) (s : Store) : Store :=
  ops.foldl (fun acc o => applyOp o acc) s

/-! ## Player motion model (Player.tsx) -/

/-- The Player component's own state: `laneIndex` and `isJumping`
(synced to the store each frame through `setPlayerState`). -/
structure PlayerState where
  laneIndex : Int
  isJumping : Bool
deriving DecidableEq

/-- `jump` (Player.tsx lines 24–30): only acts when not already jumping
and the game is playing. -/
def jump (status : Status) (p : PlayerState) : PlayerState :=
  if p.isJumping = false ∧ status = .playing then { p with isJumping := true } else p

/-- `moveLeft` (Player.tsx lines 32–36): `Math.max(0, prev - 1)` while
playing, otherwise nothing. -/
def moveLeft (status : Status) (p : PlayerState) : PlayerState :=
  if status = .playing then { p with laneIndex := max 0 (p.laneIndex - 1) } else p

/-- `moveRight` (Player.tsx lines 38–42): `Math.min(LANES.length - 1,
prev + 1)` with `LANES.length = 3`, while playing. -/
def moveRight (status : Status) (p : PlayerState) : PlayerState :=
  if status = .playing then { p with laneIndex := min 2 (p.laneIndex + 1) } else p

/-- `JUMP_HEIGHT = 2` (Player.tsx line 8). -/
def JUMP_HEIGHT : ℚ := 2

/-- `JUMP_DURATION = 0.45` seconds (Player.tsx line 9). -/
def JUMP_DURATION : ℚ := 0.45

/-- The jump-physics branch of the Player `useFrame` callback
(Player.tsx lines 104–113), as a function of the elapsed time since the
jump started: returns the vertical position set on the frame and whether
`isJumping` is still true afterwards.  For `elapsed < JUMP_DURATION` the
height is `4 * JUMP_HEIGHT * progress * (1 - progress)`; otherwise the
height snaps to 0 and the jump flag clears. -/
def jumpFrame (elapsed : ℚ) : ℚ × Bool :=
  if elapsed < JUMP_DURATION then
    (4 * JUMP_HEIGHT * (elapsed / JUMP_DURATION) * (1 - elapsed / JUMP_DURATION), true)
  else (0, false)

/-- The jump height alone. -/
def jumpHeight (elapsed : ℚ) : ℚ :=
  (jumpFrame elapsed).1

/-! ## Obstacle lifecycle and collision resolution (the obstacles component) -/

/-- `ObstacleType = 'rock' | 'chilly' | 'coin' | 'magnet'`: `rock` is the
hazard, `chilly` the speed boost, `coin` and `magnet` as named. -/
inductive ObstacleType
  | rock
  | chilly
  | coin
  | magnet
deriving DecidableEq

/-- One spawned entity: its immutable type and lane, its current z
position, its `collected` ref and its visibility. -/
structure Entity where
  type : ObstacleType
  lane : Int
  z : ℚ
  collected : Bool
  visible : Bool
deriving DecidableEq

/-- `DESPAWN_DISTANCE = 8`. -/
def DESPAWN_DISTANCE : ℚ := 8

/-- `COLLISION_THRESHOLD_Z = 1.0`. -/
def COLLISION_THRESHOLD_Z : ℚ := 1

/-- The externally observable gameplay effect dispatched by a hit, one
per branch of the collision dispatch in `ObstacleItem` (crash cue +
`endGame`; collect cue + `activateBoost` + score; collect cue + score;
collect cue + `activateMagnet` + score). -/
inductive Effect
  | crash
  | collectChilly
  | collectCoin
  | collectMagnet
deriving DecidableEq

/-- The collision-detection block of `ObstacleItem` (obstacles component
lines 109–141), for an entity at its post-move position: the hit test is
`distZ < COLLISION_THRESHOLD_Z && (laneMatch || (magnetActive && type ===
'coin'))`; a rock only acts when `!isJumping`; every dispatched branch
marks `collected` and the non-crash branches hide the entity. -/
def collide (e : Entity) (s : Store) : Entity × Store × Option Effect :=
  if abs e.z < COLLISION_THRESHOLD_Z ∧
      (e.lane = s.game.playerLane ∨ (s.game.magnetActive = true ∧ e.type = .coin)) then
    match e.type with
    | .rock =>
        if s.game.isJumping = false then
          ({ e with collected := true }, endGame s, some .crash)
        else (e, s, none)
    | .chilly =>
        ({ e with collected := true, visible := false },
          incrementScore 2 (activateBoost 4000 s), some .collectChilly)
    | .coin =>
        ({ e with collected := true, visible := false },
          incrementScore 5 s, some .collectCoin)
    | .magnet =>
        ({ e with collected := true, visible := false },
          incrementScore 3 (activateMagnet 8000 s), some .collectMagnet)
  else (e, s, none)

/-- One `useFrame` tick of `ObstacleItem` for one entity (obstacles
component lines 88–142): nothing outside playing; advance z by
`speed * 60 * delta`; despawn (entity removed, `none`) once past
`DESPAWN_DISTANCE`; run the collision block only when not yet collected.
Returns the surviving entity, the store after any dispatched effect, and
the dispatched effect. -/
def obstacleTick (e : Entity) (s : Store) (delta : ℚ) : Option Entity × Store × Option Effect :=
  if s.game.status = .playing then
    let eMoved : Entity := { e with z := e.z + s.game.speed * 60 * delta }
    if eMoved.z > DESPAWN_DISTANCE then (none, s, none)
    else if eMoved.collected = false then
      let r := collide eMoved s
      (some r.1, r.2.1, r.2.2)
    else (some eMoved, s, none)
  else (some e, s, none)

/-! ## Theorems -/

/-- C1: the spec invariant `speed = boostActive ? min(baseSpeed*1.8, 0.6) :
baseSpeed` after every settled store mutation fails at `increaseSpeed`: the
updater computes `speed` from the pre-update `baseSpeed`, so immediately
after `increaseSpeed()` from the fresh playing state (baseSpeed 0.12, no
boost) the store holds `baseSpeed = 0.123` but `speed = 0.12`, and the two
differ.  This theorem evaluates the embedded code at that failing input. -/
theorem c1_increaseSpeed_leaves_speed_stale :
    (increaseSpeed (startGame (initialStore 0))).game.status = Status.playing ∧
    (increaseSpeed (startGame (initialStore 0))).game.boostActive = false ∧
    (increaseSpeed (startGame (initialStore 0))).game.baseSpeed = 0.123 ∧
    (increaseSpeed (startGame (initialStore 0))).game.speed = 0.12 ∧
    (increaseSpeed (startGame (initialStore 0))).game.speed ≠
      (increaseSpeed (startGame (initialStore 0))).game.baseSpeed := by
  norm_num [increaseSpeed, startGame, initialStore, initialGame, min_def]

/-- C2 counterexample: a second `endGame()` while status is already
GameOver is not a no-op.  After the first `endGame()` and its 500 ms
shake-reset timeout, `screenShake` is false; the second `endGame()` sets
it back to true, a state change. -/
theorem c2_counterexample_second_endGame_sets_shake :
    (fireTimer (advance 500 (endGame (startGame (initialStore 0)))) 0).game.status =
      Status.gameover ∧
    (fireTimer (advance 500 (endGame (startGame (initialStore 0)))) 0).game.screenShake =
      false ∧
    (endGame (fireTimer (advance 500 (endGame (startGame (initialStore 0)))) 0)).game.screenShake =
      true := by
  norm_num [fireTimer, advance, endGame, startGame, initialStore, initialGame, runTimer]

/-- C2 (amended): in any state a first `endGame()` leaves behind
(status GameOver, speed 0, score ≤ highScore), a second `endGame()`
leaves every game field unchanged — its high-score commit recomputes the
same value and the status/speed writes are idempotent — except that it
sets `screenShake` back to true and schedules another 500 ms clear
timeout; it is therefore not a full no-op. -/
theorem c2_second_endGame_only_retriggers_shake (s : Store)
    (hstatus : s.game.status = Status.gameover)
    (hspeed : s.game.speed = 0)
    (hhs : s.game.score ≤ s.game.highScore) :
    (endGame s).game = { s.game with screenShake := true } ∧
    (endGame s).now = s.now ∧
    (endGame s).timers = s.timers ++ [{ fireAt := s.now + 500, kind := TimerKind.shakeClear }] := by
  refine ⟨?_, rfl, rfl⟩
  have hmax : max s.game.score s.game.highScore = s.game.highScore := max_eq_right hhs
  obtain ⟨⟨st, sc, sp, bs, pl, ij, sh, hsx, ba, ma⟩, n, ts⟩ := s
  simp only [endGame] at *
  simp_all

/-- C2 witness: the amended statement applied to the concrete state left
by a first `endGame()`. -/
theorem c2_witness :
    (endGame (endGame (startGame (initialStore 0)))).game =
      { (endGame (startGame (initialStore 0))).game with screenShake := true } ∧
    (endGame (endGame (startGame (initialStore 0)))).now =
      (endGame (startGame (initialStore 0))).now ∧
    (endGame (endGame (startGame (initialStore 0)))).timers =
      (endGame (startGame (initialStore 0))).timers ++
        [{ fireAt := (endGame (startGame (initialStore 0))).now + 500,
           kind := TimerKind.shakeClear }] :=
  c2_second_endGame_only_retriggers_shake (endGame (startGame (initialStore 0)))
    (by norm_num [endGame, startGame, initialStore, initialGame])
    (by norm_num [endGame, startGame, initialStore, initialGame])
    (by norm_num [endGame, startGame, initialStore, initialGame])

/-- C3: the code never cancels a pending power-up deactivation timeout, so
a re-trigger does not supersede the earlier timer.  Concretely:
`activateBoost(4000)` at t=0 and again at t=3000 leaves BOTH timeouts
pending (due at 4000 and 7000); when the first fires at t=4000 it clears
`boostActive`, 3000 ms before the second activation's window ends. -/
theorem c3_earlier_timer_clears_later_boost :
    (activateBoost 4000 (advance 3000 (activateBoost 4000 (startGame (initialStore 0))))).game.boostActive =
      true ∧
    (activateBoost 4000 (advance 3000 (activateBoost 4000 (startGame (initialStore 0))))).timers =
      [{ fireAt := 4000, kind := TimerKind.boostExpiry },
       { fireAt := 7000, kind := TimerKind.boostExpiry }] ∧
    (fireTimer (advance 1000 (activateBoost 4000 (advance 3000 (activateBoost 4000 (startGame (initialStore 0)))))) 0).now =
      4000 ∧
    (fireTimer (advance 1000 (activateBoost 4000 (advance 3000 (activateBoost 4000 (startGame (initialStore 0)))))) 0).game.boostActive =
      false ∧
    (fireTimer (advance 1000 (activateBoost 4000 (advance 3000 (activateBoost 4000 (startGame (initialStore 0)))))) 0).timers =
      [{ fireAt := 7000, kind := TimerKind.boostExpiry }] := by
  norm_num [fireTimer, advance, activateBoost, startGame, initialStore, initialGame, runTimer]

/-- C7: `activateBoost` immediately sets `boostActive` and
`speed = min(baseSpeed * 1.8, 0.6)`; at `baseSpeed = 0.12` that is 0.216;
a due boost-expiry timeout restores `speed` to the baseSpeed current at
expiry time and clears `boostActive`; and in the concrete scenario with no
intervening `increaseSpeed()` the post-boost speed is again 0.12. -/
theorem c7_boost_speed_and_expiry :
    (∀ (s : Store) (d : Nat),
      (activateBoost d s).game.boostActive = true ∧
      (activateBoost d s).game.speed = min (s.game.baseSpeed * 1.8) 0.6) ∧
    (∀ s : Store, s.game.baseSpeed = 0.12 → (activateBoost 5000 s).game.speed = 0.216) ∧
    (∀ (s : Store) (i : Nat) (t : Nat),
      s.timers[i]? = some { fireAt := t, kind := TimerKind.boostExpiry } → t ≤ s.now →
      (fireTimer s i).game.boostActive = false ∧
      (fireTimer s i).game.speed = s.game.baseSpeed) ∧
    (fireTimer (advance 5000 (activateBoost 5000 (startGame (initialStore 0)))) 0).game.speed =
      0.12 := by
  refine ⟨fun s d => ⟨rfl, rfl⟩, fun s h => ?_, fun s i t h ht => ?_, ?_⟩
  · show min (s.game.baseSpeed * 1.8) 0.6 = 0.216
    rw [h]; norm_num [min_def]
  · simp [fireTimer, h, ht, runTimer]
  · norm_num [fireTimer, advance, activateBoost, startGame, initialStore, initialGame, runTimer]

/-- C7 witness: the 0.216 component at the concrete fresh-run state. -/
theorem c7_witness :
    (activateBoost 5000 (startGame (initialStore 0))).game.speed = 0.216 :=
  c7_boost_speed_and_expiry.2.1 (startGame (initialStore 0))
    (by norm_num [startGame, initialStore, initialGame])

/-- `runOps` unrolls one operation at a time. -/
lemma runOps_cons (o : Op) (ops : List Op) (s : Store) :
    runOps (o :: ops) s = runOps ops (applyOp o s) := rfl

/-- No timeout callback touches `baseSpeed`. -/
lemma runTimer_baseSpeed (k : TimerKind) (g : GameState) :
    (runTimer k g).baseSpeed = g.baseSpeed := by
  cases k <;> rfl

/-- No timeout callback touches `score`. -/
lemma runTimer_score (k : TimerKind) (g : GameState) :
    (runTimer k g).score = g.score := by
  cases k <;> rfl

/-- Every operation keeps `baseSpeed` at or below the 0.4 clamp. -/
lemma applyOp_baseSpeed_le (o : Op) (s : Store) (h : s.game.baseSpeed ≤ 0.4) :
    (applyOp o s).game.baseSpeed ≤ 0.4 := by
  cases o with
  | startGame => norm_num [applyOp, startGame]
  | restartGame => norm_num [applyOp, restartGame]
  | endGame => simpa [applyOp, endGame] using h
  | incrementScore a => simpa [applyOp, incrementScore] using h
  | increaseSpeed =>
      show min (s.game.baseSpeed + 0.003) 0.4 ≤ 0.4
      exact min_le_right _ _
  | setPlayerState l j => simpa [applyOp, setPlayerState] using h
  | triggerScreenShake => simpa [applyOp, triggerScreenShake] using h
  | activateBoost d => simpa [applyOp, activateBoost] using h
  | activateMagnet d => simpa [applyOp, activateMagnet] using h
  | advance dt => simpa [applyOp, advance] using h
  | fireTimer i =>
      simp only [applyOp, fireTimer]
      cases hget : s.timers[i]? with
      | none => simpa using h
      | some t =>
          by_cases hdue : t.fireAt ≤ s.now
          · simpa [hdue, runTimer_baseSpeed] using h
          · simpa [hdue] using h

/-- In every state reachable from a fresh store, `baseSpeed` never
exceeds 0.4. -/
lemma runOps_baseSpeed_le (hs : Int) (ops : List Op) :
    (runOps ops (initialStore hs)).game.baseSpeed ≤ 0.4 := by
  suffices hgen : ∀ s : Store, s.game.baseSpeed ≤ 0.4 →
      (runOps ops s).game.baseSpeed ≤ 0.4 by
    exact hgen _ (by norm_num [initialStore, initialGame])
  induction ops with
  | nil => intro s h; simpa [runOps] using h
  | cons o rest ih =>
      intro s h
      rw [runOps_cons]
      exact ih _ (applyOp_baseSpeed_le o s h)

/-- No operation other than `startGame`/`restartGame` decreases
`baseSpeed` (given the 0.4 clamp invariant). -/
lemma applyOp_baseSpeed_mono (o : Op) (s : Store) (h : s.game.baseSpeed ≤ 0.4)
    (h1 : o ≠ Op.startGame) (h2 : o ≠ Op.restartGame) :
    s.game.baseSpeed ≤ (applyOp o s).game.baseSpeed := by
  cases o with
  | startGame => exact absurd rfl h1
  | restartGame => exact absurd rfl h2
  | endGame => simp [applyOp, endGame]
  | incrementScore a => simp [applyOp, incrementScore]
  | increaseSpeed =>
      simp only [applyOp, increaseSpeed]
      exact le_min (by linarith) h
  | setPlayerState l j => simp [applyOp, setPlayerState]
  | triggerScreenShake => simp [applyOp, triggerScreenShake]
  | activateBoost d => simp [applyOp, activateBoost]
  | activateMagnet d => simp [applyOp, activateMagnet]
  | advance dt => simp [applyOp, advance]
  | fireTimer i =>
      simp only [applyOp, fireTimer]
      cases hget : s.timers[i]? with
      | none => simp
      | some t =>
          by_cases hdue : t.fireAt ≤ s.now
          · simp [hdue, runTimer_baseSpeed]
          · simp [hdue]

/-- C5: along every operation sequence from a fresh store, `baseSpeed`
stays at or below 0.4, and from the reached state no operation other than
`startGame`/`restartGame` (the run resets) decreases it; in particular
arbitrary further `increaseSpeed()` calls keep it within the clamp. -/
theorem c5_baseSpeed_clamped_and_monotone (hs : Int) (ops : List Op) :
    (runOps ops (initialStore hs)).game.baseSpeed ≤ 0.4 ∧
    ∀ o : Op, o ≠ Op.startGame → o ≠ Op.restartGame →
      (runOps ops (initialStore hs)).game.baseSpeed ≤
        (applyOp o (runOps ops (initialStore hs))).game.baseSpeed :=
  ⟨runOps_baseSpeed_le hs ops,
   fun o h1 h2 => applyOp_baseSpeed_mono o _ (runOps_baseSpeed_le hs ops) h1 h2⟩

/-- C5 witness: the statement at a concrete run with one `increaseSpeed`
and the non-reset operation `increaseSpeed`. -/
theorem c5_witness :
    (runOps [Op.increaseSpeed] (initialStore 0)).game.baseSpeed ≤ 0.4 ∧
    (runOps [Op.increaseSpeed] (initialStore 0)).game.baseSpeed ≤
      (applyOp Op.increaseSpeed (runOps [Op.increaseSpeed] (initialStore 0))).game.baseSpeed :=
  ⟨(c5_baseSpeed_clamped_and_monotone 0 [Op.increaseSpeed]).1,
   (c5_baseSpeed_clamped_and_monotone 0 [Op.increaseSpeed]).2 Op.increaseSpeed
     (by decide) (by decide)⟩

/-- The score amounts the repository actually passes to `incrementScore`
are 2, 5 and 3 (and the default 1); this predicate captures the
non-negativity they all share. -/
def scoreSafeAmount : Op → Prop
  | .incrementScore a => 0 ≤ a
  | _ => True

/-- C6 counterexample: `startGame()` is valid from any status, including
Playing; invoked mid-run it resets `score` to 0 while the status stays
Playing, so the score strictly decreases across a public store operation
executed while Playing. -/
theorem c6_counterexample_startGame_resets_score :
    (incrementScore 5 (startGame (initialStore 0))).game.status = Status.playing ∧
    (startGame (incrementScore 5 (startGame (initialStore 0)))).game.status = Status.playing ∧
    (startGame (incrementScore 5 (startGame (initialStore 0)))).game.score <
      (incrementScore 5 (startGame (initialStore 0))).game.score := by
  norm_num [incrementScore, startGame, initialStore, initialGame]

/-- Every non-reset operation with a non-negative increment amount keeps
the score from decreasing. -/
lemma applyOp_score_mono (o : Op) (s : Store) (h1 : o ≠ Op.startGame)
    (h2 : o ≠ Op.restartGame) (ha : scoreSafeAmount o) :
    s.game.score ≤ (applyOp o s).game.score := by
  cases o with
  | startGame => exact absurd rfl h1
  | restartGame => exact absurd rfl h2
  | endGame => simp [applyOp, endGame]
  | incrementScore a =>
      have h2 : (0 : Int) ≤ a := ha
      show s.game.score ≤ s.game.score + a
      linarith
  | increaseSpeed => simp [applyOp, increaseSpeed]
  | setPlayerState l j => simp [applyOp, setPlayerState]
  | triggerScreenShake => simp [applyOp, triggerScreenShake]
  | activateBoost d => simp [applyOp, activateBoost]
  | activateMagnet d => simp [applyOp, activateMagnet]
  | advance dt => simp [applyOp, advance]
  | fireTimer i =>
      simp only [applyOp, fireTimer]
      cases hget : s.timers[i]? with
      | none => simp
      | some t =>
          by_cases hdue : t.fireAt ≤ s.now
          · simp [hdue, runTimer_score]
          · simp [hdue]

/-- Every operation with a non-negative increment amount keeps the score
non-negative. -/
lemma applyOp_score_nonneg (o : Op) (s : Store) (h : 0 ≤ s.game.score)
    (ha : scoreSafeAmount o) :
    0 ≤ (applyOp o s).game.score := by
  cases o with
  | startGame => simp [applyOp, startGame]
  | restartGame => simp [applyOp, restartGame]
  | incrementScore a =>
      have h2 : (0 : Int) ≤ a := ha
      show (0 : Int) ≤ s.game.score + a
      linarith
  | endGame => simpa [applyOp, endGame] using h
  | increaseSpeed => simpa [applyOp, increaseSpeed] using h
  | setPlayerState l j => simpa [applyOp, setPlayerState] using h
  | triggerScreenShake => simpa [applyOp, triggerScreenShake] using h
  | activateBoost d => simpa [applyOp, activateBoost] using h
  | activateMagnet d => simpa [applyOp, activateMagnet] using h
  | advance dt => simpa [applyOp, advance] using h
  | fireTimer i =>
      simp only [applyOp, fireTimer]
      cases hget : s.timers[i]? with
      | none => simpa using h
      | some t =>
          by_cases hdue : t.fireAt ≤ s.now
          · simpa [hdue, runTimer_score] using h
          · simpa [hdue] using h

/-- In every state reachable from a fresh store by operations whose
increment amounts are non-negative, the score is non-negative. -/
lemma runOps_score_nonneg (hs : Int) (ops : List Op)
    (h : ∀ o ∈ ops, scoreSafeAmount o) :
    0 ≤ (runOps ops (initialStore hs)).game.score := by
  suffices hgen : ∀ s : Store, 0 ≤ s.game.score → (∀ o ∈ ops, scoreSafeAmount o) →
      0 ≤ (runOps ops s).game.score by
    exact hgen _ (by norm_num [initialStore, initialGame]) h
  clear h
  induction ops with
  | nil => intro s h _; simpa [runOps] using h
  | cons o rest ih =>
      intro s h hmem
      rw [runOps_cons]
      exact ih _ (applyOp_score_nonneg o s h (hmem o (by simp)))
        (fun x hx => hmem x (by simp [hx]))

/-- C6 (amended): over every operation sequence whose `incrementScore`
amounts are non-negative (as at every call site in the repository), the
score is a non-negative integer in every reachable state, and from the
reached state every public operation other than `startGame`/`restartGame`
(which reset the score to 0 even when invoked while Playing) leaves the
score non-decreasing. -/
theorem c6_score_nonneg_and_monotone (hs : Int) (ops : List Op)
    (h : ∀ o ∈ ops, scoreSafeAmount o) :
    0 ≤ (runOps ops (initialStore hs)).game.score ∧
    ∀ o : Op, o ≠ Op.startGame → o ≠ Op.restartGame → scoreSafeAmount o →
      (runOps ops (initialStore hs)).game.score ≤
        (applyOp o (runOps ops (initialStore hs))).game.score :=
  ⟨runOps_score_nonneg hs ops h,
   fun o h1 h2 ha => applyOp_score_mono o _ h1 h2 ha⟩

/-- C6 witness: the statement at a concrete run collecting one coin and
then one further chilly pickup award. -/
theorem c6_witness :
    0 ≤ (runOps [Op.incrementScore 5] (initialStore 0)).game.score ∧
    (runOps [Op.incrementScore 5] (initialStore 0)).game.score ≤
      (applyOp (Op.incrementScore 2) (runOps [Op.incrementScore 5] (initialStore 0))).game.score :=
  ⟨(c6_score_nonneg_and_monotone 0 [Op.incrementScore 5]
      (by intro o ho; simp at ho; subst ho; norm_num [scoreSafeAmount])).1,
   (c6_score_nonneg_and_monotone 0 [Op.incrementScore 5]
      (by intro o ho; simp at ho; subst ho; norm_num [scoreSafeAmount])).2
     (Op.incrementScore 2) (by decide) (by decide) (by norm_num [scoreSafeAmount])⟩

/-- C8: calling `jump()` while already jumping is a no-op; with
`D = JUMP_DURATION = 0.45` and `H = JUMP_HEIGHT = 2` the jump-physics
frame computes `height(t) = 4*H*(t/D)*(1 - t/D)` for `t < D`, so
`height(0) = 0` and `height(D/2) = H`; and at `t = D` the height snaps to
0 and the jumping flag clears. -/
theorem c8_jump_idempotent_and_parabola :
    (∀ p : PlayerState, p.isJumping = true → jump Status.playing p = p) ∧
    JUMP_DURATION = 0.45 ∧
    JUMP_HEIGHT = 2 ∧
    (∀ t : ℚ, t < JUMP_DURATION →
      jumpHeight t = 4 * JUMP_HEIGHT * (t / JUMP_DURATION) * (1 - t / JUMP_DURATION)) ∧
    jumpHeight 0 = 0 ∧
    jumpHeight (JUMP_DURATION / 2) = JUMP_HEIGHT ∧
    jumpFrame JUMP_DURATION = (0, false) := by
  refine ⟨fun p hp => ?_, rfl, rfl, fun t ht => ?_, ?_, ?_, ?_⟩
  · simp [jump, hp]
  · simp [jumpHeight, jumpFrame, ht]
  · norm_num [jumpHeight, jumpFrame, JUMP_DURATION, JUMP_HEIGHT]
  · norm_num [jumpHeight, jumpFrame, JUMP_DURATION, JUMP_HEIGHT]
  · norm_num [jumpFrame, JUMP_DURATION, JUMP_HEIGHT]

/-- C8 witness: the hypotheses discharged at a concrete mid-jump player
state and a concrete in-flight time. -/
theorem c8_witness :
    jump Status.playing { laneIndex := 1, isJumping := true } =
      { laneIndex := 1, isJumping := true } ∧
    jumpHeight (1 / 4) =
      4 * JUMP_HEIGHT * ((1 / 4) / JUMP_DURATION) * (1 - (1 / 4) / JUMP_DURATION) :=
  ⟨c8_jump_idempotent_and_parabola.1 { laneIndex := 1, isJumping := true } rfl,
   c8_jump_idempotent_and_parabola.2.2.2.1 (1 / 4) (by norm_num [JUMP_DURATION])⟩

/-- C9: lane movement is clamped, not rejected — while Playing,
`moveLeft()` from lane 0 stays at 0 and `moveRight()` from lane 2 stays
at 2, while from the other lanes they decrement respectively increment by
one — and all three entry points `moveLeft`, `moveRight`, `jump` are
no-ops whenever the status is not Playing. -/
theorem c9_lane_clamp_and_status_guard :
    (∀ p : PlayerState, p.laneIndex = 0 → (moveLeft Status.playing p).laneIndex = 0) ∧
    (∀ p : PlayerState, p.laneIndex = 2 → (moveRight Status.playing p).laneIndex = 2) ∧
    (∀ p : PlayerState, p.laneIndex = 1 ∨ p.laneIndex = 2 →
      (moveLeft Status.playing p).laneIndex = p.laneIndex - 1) ∧
    (∀ p : PlayerState, p.laneIndex = 0 ∨ p.laneIndex = 1 →
      (moveRight Status.playing p).laneIndex = p.laneIndex + 1) ∧
    (∀ (st : Status) (p : PlayerState), st ≠ Status.playing →
      moveLeft st p = p ∧ moveRight st p = p ∧ jump st p = p) := by
  refine ⟨fun p hp => ?_, fun p hp => ?_, fun p hp => ?_, fun p hp => ?_,
    fun st p hst => ⟨?_, ?_, ?_⟩⟩
  · simp only [moveLeft, if_pos rfl]
    simp [hp]
  · simp only [moveRight, if_pos rfl]
    simp [hp]
  · simp only [moveLeft, if_pos rfl]
    rcases hp with hp | hp <;> simp [hp]
  · simp only [moveRight, if_pos rfl]
    rcases hp with hp | hp <;> simp [hp]
  · simp [moveLeft, hst]
  · simp [moveRight, hst]
  · simp [jump, hst]

/-- C9 witness: a clamped move from lane 0 and a guarded call at
GameOver. -/
theorem c9_witness :
    (moveLeft Status.playing { laneIndex := 0, isJumping := false }).laneIndex = 0 ∧
    moveRight Status.gameover { laneIndex := 1, isJumping := false } =
      { laneIndex := 1, isJumping := false } :=
  ⟨c9_lane_clamp_and_status_guard.1 { laneIndex := 0, isJumping := false } rfl,
   (c9_lane_clamp_and_status_guard.2.2.2.2 Status.gameover
      { laneIndex := 1, isJumping := false } (by decide)).2.1⟩

/-- C10: `setPlayerState(lane, jumping)` stores its arguments verbatim
for every integer lane (including values outside 0..2) and every boolean,
touching nothing else; the `playerLane ∈ {0,1,2}` invariant is enforced
solely by the callers: `moveLeft`/`moveRight` keep a lane index within
0..2 whenever it starts within 0..2. -/
theorem c10_setPlayerState_stores_verbatim (lane : Int) (jumping : Bool) (s : Store) :
    (setPlayerState lane jumping s).game.playerLane = lane ∧
    (setPlayerState lane jumping s).game.isJumping = jumping ∧
    (setPlayerState lane jumping s).game.status = s.game.status ∧
    (setPlayerState lane jumping s).game.score = s.game.score ∧
    (setPlayerState lane jumping s).game.speed = s.game.speed ∧
    (setPlayerState lane jumping s).game.baseSpeed = s.game.baseSpeed ∧
    (setPlayerState lane jumping s).timers = s.timers ∧
    (∀ (st : Status) (p : PlayerState), 0 ≤ p.laneIndex → p.laneIndex ≤ 2 →
      0 ≤ (moveLeft st p).laneIndex ∧ (moveLeft st p).laneIndex ≤ 2 ∧
      0 ≤ (moveRight st p).laneIndex ∧ (moveRight st p).laneIndex ≤ 2) := by
  refine ⟨rfl, rfl, rfl, rfl, rfl, rfl, rfl, fun st p h0 h2 => ?_⟩
  by_cases hst : st = Status.playing <;>
    simp [moveLeft, moveRight, hst] <;> omega

/-- C10 witness: an out-of-range lane value 5 is stored as-is, and a
caller-side move stays within the lane range. -/
theorem c10_witness :
    (setPlayerState 5 true (initialStore 0)).game.playerLane = 5 ∧
    0 ≤ (moveLeft Status.playing { laneIndex := 1, isJumping := false }).laneIndex := by
  have h := c10_setPlayerState_stores_verbatim 5 true (initialStore 0)
  exact ⟨h.1, (h.2.2.2.2.2.2.2 Status.playing { laneIndex := 1, isJumping := false }
    (by norm_num) (by norm_num)).1⟩

/-- The collision block dispatches an effect exactly when the hit test
passes and, for a rock, the player is not jumping. -/
lemma collide_effect_iff (e : Entity) (s : Store) :
    (collide e s).2.2 ≠ none ↔
      (abs e.z < COLLISION_THRESHOLD_Z ∧
       (e.lane = s.game.playerLane ∨ (s.game.magnetActive = true ∧ e.type = ObstacleType.coin)) ∧
       (e.type = ObstacleType.rock → s.game.isJumping = false)) := by
  obtain ⟨ty, lane, z, col, vis⟩ := e
  cases ty <;> simp only [collide] <;> split_ifs <;> simp_all

/-- A crash effect comes only from a rock with the player grounded, and
it drives the store through `endGame` (status becomes GameOver). -/
lemma collide_crash (e : Entity) (s : Store) :
    (collide e s).2.2 = some Effect.crash →
      e.type = ObstacleType.rock ∧ s.game.isJumping = false ∧
      (collide e s).2.1.game.status = Status.gameover := by
  obtain ⟨ty, lane, z, col, vis⟩ := e
  cases ty <;> simp only [collide] <;> split_ifs <;>
    simp_all [endGame, incrementScore, activateBoost, activateMagnet]

/-- While playing, an entity past the despawn distance is removed with no
effect. -/
lemma obstacleTick_despawn (e : Entity) (s : Store) (delta : ℚ)
    (hplay : s.game.status = Status.playing)
    (hd : e.z + s.game.speed * 60 * delta > DESPAWN_DISTANCE) :
    obstacleTick e s delta = (none, s, none) := by
  simp [obstacleTick, hplay, hd]

/-- While playing, a live (not despawned, not collected) entity goes
through the collision block at its post-move position. -/
lemma obstacleTick_live (e : Entity) (s : Store) (delta : ℚ)
    (hplay : s.game.status = Status.playing)
    (hd : ¬ e.z + s.game.speed * 60 * delta > DESPAWN_DISTANCE)
    (hcol : e.collected = false) :
    obstacleTick e s delta =
      (some (collide { e with z := e.z + s.game.speed * 60 * delta } s).1,
       (collide { e with z := e.z + s.game.speed * 60 * delta } s).2.1,
       (collide { e with z := e.z + s.game.speed * 60 * delta } s).2.2) := by
  simp [obstacleTick, hplay, hd, hcol]

/-- While playing, an already-collected entity only moves: no effect, no
store change. -/
lemma obstacleTick_collected (e : Entity) (s : Store) (delta : ℚ)
    (hplay : s.game.status = Status.playing)
    (hd : ¬ e.z + s.game.speed * 60 * delta > DESPAWN_DISTANCE)
    (hcol : e.collected = true) :
    obstacleTick e s delta =
      (some { e with z := e.z + s.game.speed * 60 * delta }, s, none) := by
  simp [obstacleTick, hplay, hd, hcol]

/-- C4: while Playing, for an entity not yet collected a collision effect
is dispatched on a tick exactly when the post-move absolute z distance is
under the threshold AND (lane match OR magnet active and the entity is a
coin), with a rock additionally requiring the player not to be jumping
(a jumping player passes a rock safely but still collects collectibles in
its lane, since only the rock branch consults `isJumping`); a crash
effect implies the entity was a rock, the player grounded, and the store
went through `endGame`; and once `collected` is true the tick dispatches
nothing, leaves the store untouched, and the entity stays collected. -/
theorem c4_collision_dispatch_characterization (e : Entity) (s : Store) (delta : ℚ)
    (hplay : s.game.status = Status.playing) :
    (e.collected = false →
      ((obstacleTick e s delta).2.2 ≠ none ↔
        (abs (e.z + s.game.speed * 60 * delta) < COLLISION_THRESHOLD_Z ∧
         (e.lane = s.game.playerLane ∨
           (s.game.magnetActive = true ∧ e.type = ObstacleType.coin)) ∧
         (e.type = ObstacleType.rock → s.game.isJumping = false)))) ∧
    ((obstacleTick e s delta).2.2 = some Effect.crash →
      e.type = ObstacleType.rock ∧ s.game.isJumping = false ∧
      (obstacleTick e s delta).2.1.game.status = Status.gameover) ∧
    (e.collected = true →
      (obstacleTick e s delta).2.2 = none ∧
      (obstacleTick e s delta).2.1 = s ∧
      ∀ x : Entity, (obstacleTick e s delta).1 = some x → x.collected = true) := by
  have hz := le_abs_self (e.z + s.game.speed * 60 * delta)
  by_cases hd : e.z + s.game.speed * 60 * delta > DESPAWN_DISTANCE
  · rw [obstacleTick_despawn e s delta hplay hd]
    refine ⟨fun hcol => ?_, by simp, fun hcol => by simp⟩
    constructor
    · intro hne; exact absurd rfl hne
    · rintro ⟨ha, -, -⟩
      rw [COLLISION_THRESHOLD_Z] at ha
      rw [DESPAWN_DISTANCE] at hd
      linarith
  · by_cases hcol : e.collected = true
    · rw [obstacleTick_collected e s delta hplay hd hcol]
      refine ⟨fun hfalse => ?_, by simp, fun hcolT => ?_⟩
      · rw [hcol] at hfalse; exact absurd hfalse (by simp)
      · refine ⟨rfl, rfl, fun x hx => ?_⟩
        have hx2 : x = { e with z := e.z + s.game.speed * 60 * delta } := by
          simpa using hx.symm
        rw [hx2]
        simpa using hcol
    · have hcolF : e.collected = false := by
        cases h : e.collected
        · rfl
        · exact absurd h hcol
      rw [obstacleTick_live e s delta hplay hd hcolF]
      refine ⟨fun hcol2 => ?_, fun hcrash => ?_, fun hcolT => absurd hcolT hcol⟩
      · have hiff := collide_effect_iff { e with z := e.z + s.game.speed * 60 * delta } s
        simpa using hiff
      · have hcr := collide_crash { e with z := e.z + s.game.speed * 60 * delta } s
        have hcr2 := hcr (by simpa using hcrash)
        simpa using hcr2

/-- C4 witness: the characterization at a concrete coin entity sitting in
the player's lane inside the hit window of a fresh run. -/
theorem c4_witness :
    (obstacleTick
      { type := ObstacleType.coin, lane := 1, z := 0.5, collected := false, visible := true }
      (startGame (initialStore 0)) 0).2.2 ≠ none := by
  have h := c4_collision_dispatch_characterization
    { type := ObstacleType.coin, lane := 1, z := 0.5, collected := false, visible := true }
    (startGame (initialStore 0)) 0 (by norm_num [startGame, initialStore, initialGame])
  refine (h.1 rfl).mpr ⟨?_, Or.inl ?_, ?_⟩
  · rw [abs_lt]
    constructor <;> norm_num [startGame, initialStore, initialGame, COLLISION_THRESHOLD_Z]
  · norm_num [startGame, initialStore, initialGame]
  · intro hrock; exact absurd hrock (by simp)

end HamsterRun
